import Mathlib

/-!
Verification development for the backstackjs navigation engine.

The repository ships two copies of the library:
* `src/public/lib/backstackjs/js/backstack.js`, embedded below in namespace `Lib`;
* `src/unnamed/part_001`, the variant matching the README's documented
  constructor signature (with an `onError` observer), embedded in namespace `Core`.

The `Backstack` class is textually identical in both files, so it is embedded
once, generically over the element type.  JavaScript objects are always truthy,
so `screens.pop()` on a non-empty array of `Screen` objects yields a truthy
value; `Array.prototype.push` returns the new length, whose truthiness is
`length != 0`.  Asynchronous `$.ajax` / `$.get` transport is modelled as an
explicit function from request data to `Option` responses (`none` = transport
failure), and callback chains are inlined into pure state-transition functions
that additionally return the list of observable events they emit, in order.
-/

namespace BackstackJs

/-- Serialized form data, as produced by jQuery's serializeArray: a list of
name/value pairs.  `none` models the JavaScript `null` that is passed when no
form data accompanies a request. -/
abbrev FormData := Option (List (String × String))

/-- The jQuery listener registry visible to one page: `click` and `submit`
handler registrations, each a pair of the selector the handler was bound
through and an identifier for the handler closure.  `$(sel).off(ev)` removes
every registration made through `sel` for that event kind. -/
structure ListenerEnv where
  click : List (String × Nat)
  submit : List (String × Nat)
deriving DecidableEq

/-- jQuery `$(sel).off(ev)` on one event kind's registration list: drops every
handler bound through selector `sel`. -/
def off (sel : String) (l : List (String × Nat)) : List (String × Nat) :=
  l.filter (fun e => e.1 != sel)

/-- `class Backstack` (identical in both source files): holds the ordered array
of screens; the top of the stack is the end of the array. -/
structure Backstack (α : Type) where
  screens : List α
deriving DecidableEq

namespace Backstack

variable {α : Type}

/-- `Backstack.pop()`: removes the top screen only when more than one remains;
`success` is the truthiness of the popped element, and popped `Screen` objects
are always truthy. -/
def pop (b : Backstack α) : Backstack α × Bool :=
  if b.screens.length > 1 then (⟨b.screens.dropLast⟩, true) else (b, false)

/-- `Backstack.popForced()`: removes the top screen whenever at least one
remains, including the last one. -/
def popForced (b : Backstack α) : Backstack α × Bool :=
  if b.screens.length ≥ 1 then (⟨b.screens.dropLast⟩, true) else (b, false)

/-- `Backstack.push(screen)`: appends; `Array.prototype.push` returns the new
length, and the returned boolean is its truthiness (`new length != 0`). -/
def push (b : Backstack α) (s : α) : Backstack α × Bool :=
  (⟨b.screens ++ [s]⟩, b.screens.length + 1 != 0)

/-- `Backstack.getCurrent()`: `screens[screens.length - 1]`; indexing past the
end of a JavaScript array yields `undefined`, modelled as `none`. -/
def getCurrent (b : Backstack α) : Option α :=
  b.screens.getLast?

end Backstack

/-- A stack operation, for reasoning about arbitrary sequences of the three
mutators the `Backstack` class exposes. -/
inductive BOp (α : Type) where
  | push (s : α)
  | pop
  | popForced
deriving DecidableEq

/-- Apply one stack operation, keeping the resulting stack. -/
def applyOp {α : Type} (b : Backstack α) : BOp α → Backstack α
  | BOp.push s => (b.push s).1
  | BOp.pop => (b.pop).1
  | BOp.popForced => (b.popForced).1

/-- Apply a sequence of stack operations from left to right. -/
def applyOps {α : Type} (b : Backstack α) (ops : List (BOp α)) : Backstack α :=
  List.foldl applyOp b ops

/-! Embedding of `src/unnamed/part_001`, the variant whose `TabBar` constructor
matches the README (`onSuccess` and `onError` observers). -/

namespace Core

/-- `class Screen` of part_001: a url, the lazily cached html, and the five
selector terms installed by the constructor. -/
structure Screen where
  url : String
  htmlCode : Option String
  goTerm : String
  backTerm : String
  goAndClearTerm : String
  submitTerm : String
  refreshTerm : String
deriving DecidableEq

/-- `new Screen(url)`. -/
def Screen.new (url : String) : Screen :=
  { url := url
    htmlCode := none
    goTerm := ".bs-override-go"
    backTerm := ".bs-override-back"
    goAndClearTerm := ".bs-override-clear"
    submitTerm := ".bs-override-submit"
    refreshTerm := ".bs-override-refresh" }

/-- Console messages, identified by the call site that prints them (the source
interpolates the offending url into the text). -/
inductive Msg where
  | screenInitError (url : String)
  | onGoPushFail (url : String)
  | onSubmitPushFail
  | onBackLastInStack
  | findTabNotFound (tabViewId : String)
deriving DecidableEq

/-- The network capability behind `$.ajax`: url, method and data determine
either a successful response body or a transport failure (`none`). -/
abbrev Net := String → String → FormData → Option String

/-- Observable events, in emission order: ajax requests, callbacks into the
caller, console output, css effects on the viewport and tab controls, and the
observer notifications the `TabBar` closures raise.  `crash` marks a thrown
`TypeError` (a method call on `undefined`) that aborts the handler. -/
inductive Ev where
  | fetch (url method : String) (data : FormData)
  | success (htmlCode url : String)
  | errorCb (url : String)
  | log (m : Msg)
  | err (m : Msg)
  | backVisibility (b : Bool)
  | destroyScreen (url : String)
  | unselectAllTabs
  | markSelected (viewId : String)
  | hideViewport
  | writeViewport (htmlCode : String)
  | observerViewUpdated (tabViewId url : String)
  | observerError (tabViewId url : String)
  | showViewport
  | crash
deriving DecidableEq

/-- Discriminator for ajax-request events. -/
def Ev.isFetch : Ev → Bool
  | Ev.fetch _ _ _ => true
  | _ => false

/-- Discriminator for screen-teardown events. -/
def Ev.isDestroy : Ev → Bool
  | Ev.destroyScreen _ => true
  | _ => false

/-- Discriminator for viewport-write events. -/
def Ev.isWrite : Ev → Bool
  | Ev.writeViewport _ => true
  | _ => false

/-- Discriminator for the two failed-push console errors of `Tab.onGo` and
`Tab.onSubmit`. -/
def Ev.isPushFailLog : Ev → Bool
  | Ev.err (Msg.onGoPushFail _) => true
  | Ev.err Msg.onSubmitPushFail => true
  | _ => false

/-- `Screen.initialise(method, data, isBackVisible, forceRefresh, ...)` of
part_001: serve the cached html unless it is absent or `forceRefresh` is set,
otherwise `getHtml` performs the ajax request; on success the response is
cached and delivered through `onSuccess` before `setupOverrides` re-installs
the interceptors (whose only trace-visible effect is back-button visibility);
on failure a console error is printed and `onError` is invoked. -/
def Screen.initialise (net : Net) (method : String) (data : FormData)
    (isBackVisible : Bool) (forceRefresh : Bool) (s : Screen) :
    Screen × List Ev :=
  match s.htmlCode, forceRefresh with
  | some code, false =>
      (s, [Ev.success code s.url, Ev.backVisibility isBackVisible])
  | _, _ =>
      match net s.url method data with
      | some code =>
          ({ s with htmlCode := some code },
            [Ev.fetch s.url method data, Ev.success code s.url,
              Ev.backVisibility isBackVisible])
      | none =>
          (s, [Ev.fetch s.url method data,
                Ev.err (Msg.screenInitError s.url), Ev.errorCb s.url])

/-- `Screen.clearGoOverride()`. -/
def Screen.clearGoOverride (s : Screen) (env : ListenerEnv) : ListenerEnv :=
  { env with click := off s.goTerm env.click }

/-- `Screen.clearBackOverride()`. -/
def Screen.clearBackOverride (s : Screen) (env : ListenerEnv) : ListenerEnv :=
  { env with click := off s.backTerm env.click }

/-- `Screen.clearGoAndClearOverride()`. -/
def Screen.clearGoAndClearOverride (s : Screen) (env : ListenerEnv) : ListenerEnv :=
  { env with click := off s.goAndClearTerm env.click }

/-- `Screen.clearSubmitOverride()` (a `submit`-event listener, not a click). -/
def Screen.clearSubmitOverride (s : Screen) (env : ListenerEnv) : ListenerEnv :=
  { env with submit := off s.submitTerm env.submit }

/-- `Screen.clearRefreshOverride()`. -/
def Screen.clearRefreshOverride (s : Screen) (env : ListenerEnv) : ListenerEnv :=
  { env with click := off s.refreshTerm env.click }

/-- `Screen.destroy()`: clears the five interceptors in source order. -/
def Screen.destroy (s : Screen) (env : ListenerEnv) : ListenerEnv :=
  s.clearRefreshOverride (s.clearSubmitOverride
    (s.clearGoAndClearOverride (s.clearBackOverride (s.clearGoOverride env))))

/-- `class Tab` of part_001: owns one `Backstack` and the id of its clickable
control. -/
structure Tab where
  backstack : Backstack Screen
  viewId : String
deriving DecidableEq

/-- `new Tab(initialScreens, tabViewId)`. -/
def Tab.new (initialScreens : List Screen) (tabViewId : String) : Tab :=
  { backstack := ⟨initialScreens⟩, viewId := tabViewId }

/-- `Tab.isHeaderBackVisible()`. -/
def Tab.isHeaderBackVisible (t : Tab) : Bool :=
  t.backstack.screens.length > 1

/-- `Tab.setCurrentScreenHTML(method, data, forceRefresh, ...)`: initialise
the current screen.  The source mutates the `Screen` object in place; the
embedding writes the updated screen back at the top of the stack.  Calling any
method on the `undefined` returned by `getCurrent()` on an empty stack throws,
modelled as a `crash` event with no state change. -/
def Tab.setCurrentScreenHTML (net : Net) (method : String) (data : FormData)
    (forceRefresh : Bool) (t : Tab) : Tab × List Ev :=
  match t.backstack.getCurrent with
  | none => (t, [Ev.crash])
  | some scr =>
      let r := scr.initialise net method data t.isHeaderBackVisible forceRefresh
      ({ t with backstack := ⟨t.backstack.screens.dropLast ++ [r.1]⟩ }, r.2)

/-- `Tab.onGo(url, ...)`: push a fresh screen for the destination and load it
with `forceRefresh = true`; the `else` branch only logs (the push had already
mutated the stack). -/
def Tab.onGo (net : Net) (url : String) (t : Tab) : Tab × List Ev :=
  let p := t.backstack.push (Screen.new url)
  if p.2 then
    Tab.setCurrentScreenHTML net "GET" none true { t with backstack := p.1 }
  else
    ({ t with backstack := p.1 }, [Ev.err (Msg.onGoPushFail url)])

/-- `Tab.onBack(...)`: pop, and only reload (cache allowed) when a screen was
actually popped; otherwise print the last-in-stack diagnostic. -/
def Tab.onBack (net : Net) (t : Tab) : Tab × List Ev :=
  let p := t.backstack.pop
  if p.2 then
    Tab.setCurrentScreenHTML net "GET" none false { t with backstack := p.1 }
  else
    ({ t with backstack := p.1 }, [Ev.log Msg.onBackLastInStack])

/-- `Tab.onGoAndClear(url, ...)`: forced pop, then `onGo`. -/
def Tab.onGoAndClear (net : Net) (url : String) (t : Tab) : Tab × List Ev :=
  let p := t.backstack.popForced
  Tab.onGo net url { t with backstack := p.1 }

/-- `Tab.onSubmit(action, method, data, ...)`: push a fresh screen for the
form's action and load it with the submitted method and data
(`forceRefresh = false`; the fresh screen has no cache, so the request is
issued regardless).  The unreachable `else` branch logs a console error. -/
def Tab.onSubmit (net : Net) (action method : String) (data : FormData)
    (t : Tab) : Tab × List Ev :=
  let p := t.backstack.push (Screen.new action)
  if p.2 then
    Tab.setCurrentScreenHTML net method data false { t with backstack := p.1 }
  else
    ({ t with backstack := p.1 }, [Ev.err Msg.onSubmitPushFail])

/-- `Tab.onRefresh(...)`: reload the current screen with
`forceRefresh = false` (the source calls this a soft-refresh that reapplies
cached html). -/
def Tab.onRefresh (net : Net) (t : Tab) : Tab × List Ev :=
  Tab.setCurrentScreenHTML net "GET" none false t

/-- The full refresh trigger of part_001: the `setRefreshOverride` click
handler runs `self.destroy(); callback();`, and the callback registered by
`setCurrentScreenHTML` is `Tab.onRefresh`.  The handler only exists while the
current screen is bound. -/
def Tab.refreshClick (net : Net) (t : Tab) : Tab × List Ev :=
  match t.backstack.getCurrent with
  | none => (t, [Ev.crash])
  | some scr =>
      let r := Tab.onRefresh net t
      (r.1, Ev.destroyScreen scr.url :: r.2)

/-- `class TabBar` of part_001.  The viewport id and the two observer
callbacks are capabilities, not state; the trace records their use. -/
structure TabBar where
  tabClassName : String
  tabSelectedClassName : String
  tabs : List Tab
  selectedTabViewId : String
  transitionSpeed : String
deriving DecidableEq

/-- The state part of `new TabBar(tabs, appViewId, selectedTabViewId,
transitionSpeed, onSuccess, onError)` (the constructor then installs the click
listeners and programmatically clicks the initially selected tab). -/
def TabBar.new (tabs : List Tab) (selectedTabViewId : String)
    (transitionSpeed : String) : TabBar :=
  { tabClassName := "btn-tab"
    tabSelectedClassName := "btn-tab-selected"
    tabs := tabs
    selectedTabViewId := selectedTabViewId
    transitionSpeed := transitionSpeed }

/-- `TabBar.findTab(tabViewId)`: `Array.prototype.find`; when no tab matches
the source logs an error and falls through, returning `undefined`. -/
def TabBar.findTab (bar : TabBar) (tabViewId : String) : Option Tab :=
  bar.tabs.find? (fun tab => tab.viewId == tabViewId)

/-- The `onSuccess` and `onError` closures `setTabsClickListeners` hands to
`Tab.onClick`: a successful load writes the viewport, notifies the observer
and reveals the viewport; a failed load only notifies the error observer.
Every other tab-level event reaches the page unchanged. -/
def wrapTabEv (tabViewId : String) : Ev → List Ev
  | Ev.success code url =>
      [Ev.writeViewport code, Ev.observerViewUpdated tabViewId url,
        Ev.showViewport]
  | Ev.errorCb url => [Ev.observerError tabViewId url]
  | e => [e]

/-- A click on the `i`-th tab's control, running the two handlers
`setTabsClickListeners` registers in order: first the selected-class toggle,
then `Tab.onClick`'s handler, whose `preCreate` hides the viewport, destroys
the previously selected tab's current screen and updates the selection record
before `setCurrentScreenHTML("GET", null, true, ...)` reloads the clicked
tab.  A missing selected tab (`findTab` returns `undefined`) or an empty
selected backstack throws inside `preCreate`, aborting the handler before the
selection record changes. -/
def TabBar.clickTabAt (net : Net) (bar : TabBar) (i : Nat) : TabBar × List Ev :=
  match bar.tabs.get? i with
  | none => (bar, [])
  | some tab =>
      match bar.findTab bar.selectedTabViewId with
      | none =>
          (bar, [Ev.unselectAllTabs, Ev.markSelected tab.viewId,
            Ev.hideViewport,
            Ev.err (Msg.findTabNotFound bar.selectedTabViewId), Ev.crash])
      | some old =>
          match old.backstack.getCurrent with
          | none =>
              (bar, [Ev.unselectAllTabs, Ev.markSelected tab.viewId,
                Ev.hideViewport, Ev.crash])
          | some scr =>
              let r := Tab.setCurrentScreenHTML net "GET" none true tab
              ({ bar with
                  selectedTabViewId := tab.viewId
                  tabs := bar.tabs.set i r.1 },
                [Ev.unselectAllTabs, Ev.markSelected tab.viewId,
                  Ev.hideViewport, Ev.destroyScreen scr.url]
                  ++ r.2.flatMap (wrapTabEv tab.viewId))

end Core

/-! Embedding of `src/public/lib/backstackjs/js/backstack.js`.  Its `Screen`
keeps a `forceRefreshOnLoad` flag, set by the submit and refresh overrides,
and its fetches are plain `$.get(url, cb)` calls with no error handler. -/

namespace Lib

/-- `class Screen` of backstack.js: url, cached html, the stale flag, and the
five selector terms installed by the constructor. -/
structure Screen where
  url : String
  htmlCode : Option String
  forceRefreshOnLoad : Bool
  goTerm : String
  backTerm : String
  goAndClearTerm : String
  submitTerm : String
  refreshTerm : String
deriving DecidableEq

/-- `new Screen(url)`. -/
def Screen.new (url : String) : Screen :=
  { url := url
    htmlCode := none
    forceRefreshOnLoad := false
    goTerm := ".bs-override-go"
    backTerm := ".bs-override-back"
    goAndClearTerm := ".bs-override-clear"
    submitTerm := ".bs-override-submit"
    refreshTerm := ".bs-override-refresh" }

/-- The network capability behind `$.get`: the url determines either the
response body or a transport failure (`none`). -/
abbrev Net := String → Option String

/-- Observable events of the backstack.js variant, in emission order.
`submitSuccess` carries no payload because `submitForm`'s success handler
invokes its callback with no arguments, discarding the response body. -/
inductive Ev where
  | fetch (url : String)
  | getHTML (htmlCode url : String)
  | backVisibility (b : Bool)
  | destroyScreen (url : String)
  | submitRequest (url method : String) (data : FormData)
  | submitSuccess
  | submitErrorLog
  | crash
deriving DecidableEq

/-- `Screen.initialise(isBackVisible, onGetHTML, ...)`: serve the cached html
unless it is absent or flagged stale, otherwise `$.get` the url.  Inside the
success callback the source runs `this.forceRefreshOnLoad = false` — but
`this` there is the callback's own receiver, not the Screen (the Screen is the
captured `self`, used on the adjacent `self.htmlCode` line) — so the Screen's
stale flag is left unchanged.  `$.get` has no failure handler, so a transport
failure runs nothing. -/
def Screen.initialise (net : Net) (isBackVisible : Bool) (s : Screen) :
    Screen × List Ev :=
  match s.htmlCode, s.forceRefreshOnLoad with
  | some code, false =>
      (s, [Ev.getHTML code s.url, Ev.backVisibility isBackVisible])
  | _, _ =>
      match net s.url with
      | some code =>
          ({ s with htmlCode := some code },
            [Ev.fetch s.url, Ev.getHTML code s.url,
              Ev.backVisibility isBackVisible])
      | none => (s, [Ev.fetch s.url])

/-- `Screen.initialiseIgnoreCache(...)`: always `$.get`s, with the same
ineffective `this.forceRefreshOnLoad = false` in the callback. -/
def Screen.initialiseIgnoreCache (net : Net) (isBackVisible : Bool)
    (s : Screen) : Screen × List Ev :=
  match net s.url with
  | some code =>
      ({ s with htmlCode := some code },
        [Ev.fetch s.url, Ev.getHTML code s.url,
          Ev.backVisibility isBackVisible])
  | none => (s, [Ev.fetch s.url])

/-- `class Tab` of backstack.js. -/
structure Tab where
  backstack : Backstack Screen
  viewId : String
deriving DecidableEq

/-- `Tab.isHeaderBackVisible()`. -/
def Tab.isHeaderBackVisible (t : Tab) : Bool :=
  t.backstack.screens.length > 1

/-- `Tab.getHtml(onGetHTML)`: initialise the current screen with the cache
allowed; the source mutates the screen in place, the embedding writes it back
at the top of the stack. -/
def Tab.getHtml (net : Net) (t : Tab) : Tab × List Ev :=
  match t.backstack.getCurrent with
  | none => (t, [Ev.crash])
  | some scr =>
      let r := scr.initialise net t.isHeaderBackVisible
      ({ t with backstack := ⟨t.backstack.screens.dropLast ++ [r.1]⟩ }, r.2)

/-- `Tab.onRefresh(onGetHTML)`: just `getHtml`. -/
def Tab.onRefresh (net : Net) (t : Tab) : Tab × List Ev :=
  Tab.getHtml net t

/-- The network capability behind the submit `$.ajax` of backstack.js: the
action url, method and serialized form data determine either a response body
or a transport failure (`none`). -/
abbrev AjaxNet := String → String → FormData → Option String

/-- `Tab.submitForm(action, method, data, onSuccess, onError)` of
backstack.js: `$.ajax` with the form's action, uppercased method and data.
The success handler is `function(data) { onSuccess(); }` — it discards the
response body and invokes the callback with no arguments; the error handler
passes the failure to `onError`, the `onFailure` closure from
`setSubmitOverride`, which logs a console error. -/
def Tab.submitForm (net : AjaxNet) (action method : String) (data : FormData)
    (t : Tab) : Tab × List Ev :=
  match net action method data with
  | some _ => (t, [Ev.submitRequest action method data, Ev.submitSuccess])
  | none => (t, [Ev.submitRequest action method data, Ev.submitErrorLog])

/-- `Tab.onSubmit(action, method, data, onSuccess, onError)` of backstack.js
(lines 481-483): delegates to `submitForm` only — no screen is pushed and the
backstack is untouched. -/
def Tab.onSubmit (net : AjaxNet) (action method : String) (data : FormData)
    (t : Tab) : Tab × List Ev :=
  Tab.submitForm net action method data t

/-- The full submit trigger of backstack.js: the `setSubmitOverride` handler
sets `forceRefreshOnLoad := true` on the bound screen (and does not
`destroy`), then invokes the callback `Tab.getHtml` wired to `Tab.onSubmit`. -/
def Tab.submitClick (net : AjaxNet) (action method : String) (data : FormData)
    (t : Tab) : Tab × List Ev :=
  match t.backstack.getCurrent with
  | none => (t, [Ev.crash])
  | some scr =>
      let scr' := { scr with forceRefreshOnLoad := true }
      Tab.onSubmit net action method data
        { t with backstack := ⟨t.backstack.screens.dropLast ++ [scr']⟩ }

/-- The full refresh trigger of backstack.js: the `setRefreshOverride` click
handler sets `forceRefreshOnLoad := true` on the bound screen, destroys its
bindings and invokes the callback, which is `Tab.onRefresh`. -/
def Tab.refreshClick (net : Net) (t : Tab) : Tab × List Ev :=
  match t.backstack.getCurrent with
  | none => (t, [Ev.crash])
  | some scr =>
      let scr' := { scr with forceRefreshOnLoad := true }
      let r := Tab.onRefresh net
        { t with backstack := ⟨t.backstack.screens.dropLast ++ [scr']⟩ }
      (r.1, Ev.destroyScreen scr.url :: r.2)

end Lib

/-! Helper lemmas shared by several claims. -/

/-- `Array.prototype.push` returns the new, non-zero length, so the truthiness
check in `Backstack.push` always yields `true`. -/
theorem push_snd {α : Type} (b : Backstack α) (s : α) : (b.push s).2 = true := by
  simp [Backstack.push]

/-- A forced pop always leaves `dropLast` of the screens (an empty stack is
unchanged, and `dropLast` of an empty list is empty). -/
theorem popForced_fst_screens {α : Type} (b : Backstack α) :
    (b.popForced).1.screens = b.screens.dropLast := by
  by_cases h : b.screens.length ≥ 1
  · simp [Backstack.popForced, h]
  · have hnil : b.screens = [] := by
      cases hs : b.screens with
      | nil => rfl
      | cons a l => rw [hs] at h; simp at h
    simp [Backstack.popForced, h, hnil]

/-- `off` leaves a registration list without the removed selector unchanged. -/
theorem off_eq_self {a : String} {l : List (String × Nat)}
    (h : ∀ e ∈ l, (e.1 != a) = true) : off a l = l :=
  List.filter_eq_self.mpr h

/-! Claim theorems. -/

/-- C1: `pop` removes the top element only when more than one element remains
and returns `true` exactly when a removal occurred; any sequence of `push` and
`pop` operations (no `popForced`) keeps a stack that starts with at least one
element non-empty; and `getCurrent` is defined whenever the stack is
non-empty. -/
theorem c1_backstack_discipline :
    (∀ (b : Backstack Core.Screen),
        ((b.pop).2 = true ↔ 1 < b.screens.length) ∧
        (1 < b.screens.length → (b.pop).1.screens = b.screens.dropLast) ∧
        (¬ 1 < b.screens.length → (b.pop).1 = b) ∧
        ((b.pop).2 = true ↔ (b.pop).1.screens.length < b.screens.length)) ∧
    (∀ (ops : List (BOp Core.Screen)) (b : Backstack Core.Screen),
        (∀ op ∈ ops, op ≠ BOp.popForced) → 1 ≤ b.screens.length →
        1 ≤ (applyOps b ops).screens.length) ∧
    (∀ (b : Backstack Core.Screen),
        b.screens ≠ [] → (b.getCurrent).isSome = true) := by
  refine ⟨?_, ?_, ?_⟩
  · intro b
    refine ⟨?_, ?_, ?_, ?_⟩
    · by_cases h : b.screens.length > 1 <;> simp [Backstack.pop, h]
    · intro h; simp [Backstack.pop, h]
    · intro h; simp [Backstack.pop, h]
    · by_cases h : b.screens.length > 1
      · simp [Backstack.pop, h, List.length_dropLast]
        omega
      · simp [Backstack.pop, h]
  · intro ops
    induction ops with
    | nil => intro b _ hb; simpa [applyOps] using hb
    | cons op ops ih =>
        intro b hops hb
        have hop : op ≠ BOp.popForced := hops op (List.mem_cons_self op ops)
        have hops' : ∀ o ∈ ops, o ≠ BOp.popForced :=
          fun o ho => hops o (List.mem_cons_of_mem op ho)
        have hstep : 1 ≤ (applyOp b op).screens.length := by
          cases op with
          | push s =>
              simp [applyOp, Backstack.push]
          | pop =>
              by_cases h : b.screens.length > 1
              · simp only [applyOp, Backstack.pop, if_pos h,
                  List.length_dropLast]
                omega
              · simpa [applyOp, Backstack.pop, h] using hb
          | popForced => exact absurd rfl hop
        exact ih (applyOp b op) hops' hstep
  · intro b hb
    simpa [Backstack.getCurrent, List.getLast?_isSome] using hb

/-- Witness for C1 at a concrete one-element stack and a push/pop/pop
sequence. -/
theorem c1_backstack_discipline_witness :
    ((∀ op ∈ ([BOp.push (Core.Screen.new "page2"), BOp.pop, BOp.pop] :
        List (BOp Core.Screen)), op ≠ BOp.popForced) ∧
      1 ≤ (Backstack.mk [Core.Screen.new "home"]).screens.length) ∧
    1 ≤ (applyOps (Backstack.mk [Core.Screen.new "home"])
        [BOp.push (Core.Screen.new "page2"), BOp.pop, BOp.pop]).screens.length :=
  ⟨⟨by decide, by decide⟩,
    c1_backstack_discipline.2.1 _ _ (by decide) (by decide)⟩

/-- C6: on an empty `Backstack`, `getCurrent` (`screens[length - 1]`) yields
the `undefined` outcome (no `Screen` value), modelled as `none`. -/
theorem c6_getCurrent_empty (b : Backstack Core.Screen)
    (h : b.screens = []) : b.getCurrent = none := by
  simp [Backstack.getCurrent, h]

/-- Witness for C6 on the literal empty stack. -/
theorem c6_getCurrent_empty_witness :
    (Backstack.mk ([] : List Core.Screen)).screens = [] ∧
    (Backstack.mk ([] : List Core.Screen)).getCurrent = none :=
  ⟨rfl, c6_getCurrent_empty _ rfl⟩

/-- The trace of `setCurrentScreenHTML` never contains a failed-push console
error: those messages are only printed by the `else` branches of `onGo` and
`onSubmit`. -/
theorem setCurrent_all_no_pushFail (net : Core.Net) (method : String)
    (data : FormData) (f : Bool) (t : Core.Tab) :
    ((Core.Tab.setCurrentScreenHTML net method data f t).2.all
      (fun e => !e.isPushFailLog)) = true := by
  cases hcur : t.backstack.getCurrent with
  | none => simp [Core.Tab.setCurrentScreenHTML, hcur, Core.Ev.isPushFailLog]
  | some scr =>
      cases hc : scr.htmlCode with
      | some code =>
          cases f with
          | false =>
              simp [Core.Tab.setCurrentScreenHTML, Core.Screen.initialise,
                hcur, hc, Core.Ev.isPushFailLog]
          | true =>
              cases hnet : net scr.url method data <;>
                simp [Core.Tab.setCurrentScreenHTML, Core.Screen.initialise,
                  hcur, hc, hnet, Core.Ev.isPushFailLog]
      | none =>
          cases hnet : net scr.url method data <;>
            simp [Core.Tab.setCurrentScreenHTML, Core.Screen.initialise,
              hcur, hc, hnet, Core.Ev.isPushFailLog]

/-- C7: when the stack has depth exactly one, `onBack` is a defined no-op:
the tab (hence stack and current screen) is unchanged, no ajax request is
issued, and the last-in-stack diagnostic is printed. -/
theorem c7_back_on_depth_one (net : Core.Net) (t : Core.Tab)
    (h : t.backstack.screens.length = 1) :
    (Core.Tab.onBack net t).1 = t ∧
    ((Core.Tab.onBack net t).2.all (fun e => !e.isFetch)) = true ∧
    Core.Ev.log Core.Msg.onBackLastInStack ∈ (Core.Tab.onBack net t).2 := by
  obtain ⟨bs, vid⟩ := t
  have hpop : bs.pop = (bs, false) := by
    simp only [Backstack.pop] at *
    rw [if_neg]
    omega
  simp [Core.Tab.onBack, hpop, Core.Ev.isFetch]

/-- Witness for C7 on a depth-one tab. -/
theorem c7_back_on_depth_one_witness :
    (Core.Tab.new [Core.Screen.new "home"] "tab-one").backstack.screens.length
        = 1 ∧
    ((Core.Tab.onBack (fun _ _ _ => some "html")
        (Core.Tab.new [Core.Screen.new "home"] "tab-one")).1
      = Core.Tab.new [Core.Screen.new "home"] "tab-one" ∧
    ((Core.Tab.onBack (fun _ _ _ => some "html")
        (Core.Tab.new [Core.Screen.new "home"] "tab-one")).2.all
      (fun e => !e.isFetch)) = true ∧
    Core.Ev.log Core.Msg.onBackLastInStack ∈
      (Core.Tab.onBack (fun _ _ _ => some "html")
        (Core.Tab.new [Core.Screen.new "home"] "tab-one")).2) :=
  ⟨rfl, c7_back_on_depth_one (fun _ _ _ => some "html")
    (Core.Tab.new [Core.Screen.new "home"] "tab-one") rfl⟩

/-- C9: `Screen.destroy` is idempotent on the listener registry, and after one
call no handler bound through any of the screen's five selector terms
remains (the four click interceptors and the submit interceptor). -/
theorem c9_destroy_idempotent (s : Core.Screen) (env : ListenerEnv) :
    s.destroy (s.destroy env) = s.destroy env ∧
    ((s.destroy env).click.all (fun e =>
      e.1 != s.goTerm && e.1 != s.backTerm &&
      e.1 != s.goAndClearTerm && e.1 != s.refreshTerm)) = true ∧
    ((s.destroy env).submit.all (fun e => e.1 != s.submitTerm)) = true := by
  have hclick : ∀ e ∈ (s.destroy env).click,
      (e.1 != s.goTerm) = true ∧ (e.1 != s.backTerm) = true ∧
      (e.1 != s.goAndClearTerm) = true ∧ (e.1 != s.refreshTerm) = true := by
    intro e he
    simp only [Core.Screen.destroy, Core.Screen.clearRefreshOverride,
      Core.Screen.clearSubmitOverride, Core.Screen.clearGoAndClearOverride,
      Core.Screen.clearBackOverride, Core.Screen.clearGoOverride,
      off, List.mem_filter] at he
    tauto
  have hsubmit : ∀ e ∈ (s.destroy env).submit, (e.1 != s.submitTerm) = true := by
    intro e he
    simp only [Core.Screen.destroy, Core.Screen.clearRefreshOverride,
      Core.Screen.clearSubmitOverride, Core.Screen.clearGoAndClearOverride,
      Core.Screen.clearBackOverride, Core.Screen.clearGoOverride,
      off, List.mem_filter] at he
    tauto
  have hgo : s.clearGoOverride (s.destroy env) = s.destroy env := by
    show { s.destroy env with
      click := off s.goTerm (s.destroy env).click } = s.destroy env
    rw [off_eq_self (fun e he => (hclick e he).1)]
  have hback : s.clearBackOverride (s.destroy env) = s.destroy env := by
    show { s.destroy env with
      click := off s.backTerm (s.destroy env).click } = s.destroy env
    rw [off_eq_self (fun e he => (hclick e he).2.1)]
  have hgac : s.clearGoAndClearOverride (s.destroy env) = s.destroy env := by
    show { s.destroy env with
      click := off s.goAndClearTerm (s.destroy env).click } = s.destroy env
    rw [off_eq_self (fun e he => (hclick e he).2.2.1)]
  have hrefresh : s.clearRefreshOverride (s.destroy env) = s.destroy env := by
    show { s.destroy env with
      click := off s.refreshTerm (s.destroy env).click } = s.destroy env
    rw [off_eq_self (fun e he => (hclick e he).2.2.2)]
  have hsub : s.clearSubmitOverride (s.destroy env) = s.destroy env := by
    show { s.destroy env with
      submit := off s.submitTerm (s.destroy env).submit } = s.destroy env
    rw [off_eq_self hsubmit]
  refine ⟨?_, ?_, ?_⟩
  · show s.clearRefreshOverride (s.clearSubmitOverride
      (s.clearGoAndClearOverride (s.clearBackOverride
        (s.clearGoOverride (s.destroy env))))) = s.destroy env
    rw [hgo, hback, hgac, hsub, hrefresh]
  · rw [List.all_eq_true]
    intro e he
    obtain ⟨h1, h2, h3, h4⟩ := hclick e he
    simp [h1, h2, h3, h4]
  · rw [List.all_eq_true]
    intro e he
    exact hsubmit e he

/-- C10: `push` always returns `true` (the backing array's `push` yields a
non-zero length), so the failed-push console errors in `onGo` and `onSubmit`
never appear in any trace. -/
theorem c10_push_always_succeeds :
    (∀ (b : Backstack Core.Screen) (s : Core.Screen), (b.push s).2 = true) ∧
    (∀ (net : Core.Net) (url : String) (t : Core.Tab),
        ((Core.Tab.onGo net url t).2.all (fun e => !e.isPushFailLog)) = true) ∧
    (∀ (net : Core.Net) (action method : String) (data : FormData)
        (t : Core.Tab),
        ((Core.Tab.onSubmit net action method data t).2.all
          (fun e => !e.isPushFailLog)) = true) := by
  refine ⟨fun b s => push_snd b s, ?_, ?_⟩
  · intro net url t
    have hp := push_snd t.backstack (Core.Screen.new url)
    simp only [Core.Tab.onGo, hp, if_true]
    exact setCurrent_all_no_pushFail net "GET" none true _
  · intro net action method data t
    have hp := push_snd t.backstack (Core.Screen.new action)
    simp only [Core.Tab.onSubmit, hp, if_true]
    exact setCurrent_all_no_pushFail net method data false _

/-- C2 (amended): in the part_001 variant, `onSubmit(action, method, data)`
pushes a fresh `Screen(action)` onto the tab's backstack and issues the ajax
request for `action` with the given method and data; on success the response
becomes the cached content of the new current screen and is delivered to the
caller, so a stack of locators `us` becomes `us ++ [action]`.  The
backstack.js variant does not behave this way: see the counterexample on
`Lib.Tab.submitClick`. -/
theorem c2_submit_pushes_action_screen (net : Core.Net) (t : Core.Tab)
    (action method : String) (data : FormData) (resp : String)
    (hnet : net action method data = some resp) :
    (Core.Tab.onSubmit net action method data t).1.backstack.screens.map
        Core.Screen.url
      = t.backstack.screens.map Core.Screen.url ++ [action] ∧
    (Core.Tab.onSubmit net action method data t).1.backstack.getCurrent
      = some { Core.Screen.new action with htmlCode := some resp } ∧
    Core.Ev.fetch action method data ∈
      (Core.Tab.onSubmit net action method data t).2 ∧
    Core.Ev.success resp action ∈
      (Core.Tab.onSubmit net action method data t).2 := by
  have hp := push_snd t.backstack (Core.Screen.new action)
  have hred : Core.Tab.onSubmit net action method data t =
      Core.Tab.setCurrentScreenHTML net method data false
        { t with backstack := (t.backstack.push (Core.Screen.new action)).1 } := by
    simp only [Core.Tab.onSubmit, hp, if_true]
  rw [hred]
  have hcur : ({ t with
      backstack := (t.backstack.push (Core.Screen.new action)).1
      } : Core.Tab).backstack.getCurrent = some (Core.Screen.new action) := by
    simp [Backstack.push, Backstack.getCurrent]
  simp only [Core.Tab.setCurrentScreenHTML, hcur]
  simp [Core.Screen.initialise, Core.Screen.new, Backstack.push,
    Backstack.getCurrent, hnet, List.dropLast_concat]

/-- Witness for C2: a successful submit from the one-screen stack `[Home]`
with action `save.endpoint`. -/
theorem c2_submit_pushes_action_screen_witness :
    (fun (a : String) (_ : String) (_ : FormData) =>
        if a == "save.endpoint" then some "submission-response"
        else some "home-html") "save.endpoint" "post" (some [("x", "1")])
      = some "submission-response" ∧
    ((Core.Tab.onSubmit
        (fun a _ _ => if a == "save.endpoint" then some "submission-response"
          else some "home-html")
        "save.endpoint" "post" (some [("x", "1")])
        (Core.Tab.new [Core.Screen.new "home"] "tab-one")).1.backstack.screens.map
          Core.Screen.url
        = (Core.Tab.new [Core.Screen.new "home"]
            "tab-one").backstack.screens.map Core.Screen.url
          ++ ["save.endpoint"] ∧
      (Core.Tab.onSubmit
        (fun a _ _ => if a == "save.endpoint" then some "submission-response"
          else some "home-html")
        "save.endpoint" "post" (some [("x", "1")])
        (Core.Tab.new [Core.Screen.new "home"] "tab-one")).1.backstack.getCurrent
        = some { Core.Screen.new "save.endpoint" with
            htmlCode := some "submission-response" } ∧
      Core.Ev.fetch "save.endpoint" "post" (some [("x", "1")]) ∈
        (Core.Tab.onSubmit
          (fun a _ _ => if a == "save.endpoint" then some "submission-response"
            else some "home-html")
          "save.endpoint" "post" (some [("x", "1")])
          (Core.Tab.new [Core.Screen.new "home"] "tab-one")).2 ∧
      Core.Ev.success "submission-response" "save.endpoint" ∈
        (Core.Tab.onSubmit
          (fun a _ _ => if a == "save.endpoint" then some "submission-response"
            else some "home-html")
          "save.endpoint" "post" (some [("x", "1")])
          (Core.Tab.new [Core.Screen.new "home"] "tab-one")).2) :=
  ⟨rfl, c2_submit_pushes_action_screen _ _ "save.endpoint" "post"
    (some [("x", "1")]) "submission-response" rfl⟩

/-- A one-screen tab of the backstack.js variant showing a rendered `Home`
screen with cached content. -/
def c2LibTab : Lib.Tab :=
  { backstack := ⟨[{ Lib.Screen.new "home" with htmlCode := some "home-html" }]⟩
    viewId := "tab-one" }

/-- A network on which the submit endpoint answers successfully. -/
def c2LibNet : Lib.AjaxNet := fun _ _ _ => some "submission-response"

/-- C2 counterexample: in the backstack.js variant (`Tab.onSubmit`, lines
481-483), a successful Submit with action `save.endpoint` on the stack
`[Home]` pushes nothing: the locator stack stays `["home"]` rather than
becoming `["home", "save.endpoint"]`, the current screen is merely flagged
stale, and the whole trace is the request followed by the argument-less
success callback — the submission response is discarded and never rendered
as any screen's content. -/
theorem c2_submit_lib_counterexample :
    c2LibNet "save.endpoint" "post" (some [("x", "1")])
      = some "submission-response" ∧
    (Lib.Tab.submitClick c2LibNet "save.endpoint" "post" (some [("x", "1")])
        c2LibTab).1.backstack.screens.map Lib.Screen.url = ["home"] ∧
    (Lib.Tab.submitClick c2LibNet "save.endpoint" "post" (some [("x", "1")])
        c2LibTab).1.backstack.getCurrent
      = some { Lib.Screen.new "home" with
          htmlCode := some "home-html", forceRefreshOnLoad := true } ∧
    (Lib.Tab.submitClick c2LibNet "save.endpoint" "post" (some [("x", "1")])
        c2LibTab).2
      = [Lib.Ev.submitRequest "save.endpoint" "post" (some [("x", "1")]),
          Lib.Ev.submitSuccess] :=
  ⟨rfl, rfl, rfl, rfl⟩

/-- `onGo(url)` appends a fresh screen for `url`, issues the request for it
(a fresh screen has no cache, and `forceRefresh` is passed as `true`), and on
success the response is the new current screen's content. -/
theorem onGo_spec (net : Core.Net) (url : String) (t : Core.Tab) :
    (Core.Tab.onGo net url t).1.backstack.screens.map Core.Screen.url
      = t.backstack.screens.map Core.Screen.url ++ [url] ∧
    Core.Ev.fetch url "GET" none ∈ (Core.Tab.onGo net url t).2 ∧
    (∀ resp, net url "GET" none = some resp →
      (Core.Tab.onGo net url t).1.backstack.getCurrent
        = some { Core.Screen.new url with htmlCode := some resp }) := by
  have hp := push_snd t.backstack (Core.Screen.new url)
  have hred : Core.Tab.onGo net url t =
      Core.Tab.setCurrentScreenHTML net "GET" none true
        { t with backstack := (t.backstack.push (Core.Screen.new url)).1 } := by
    simp only [Core.Tab.onGo, hp, if_true]
  rw [hred]
  have hcur : ({ t with
      backstack := (t.backstack.push (Core.Screen.new url)).1
      } : Core.Tab).backstack.getCurrent = some (Core.Screen.new url) := by
    simp [Backstack.push, Backstack.getCurrent]
  simp only [Core.Tab.setCurrentScreenHTML, hcur]
  cases hnet : net url "GET" none with
  | some resp =>
      simp [Core.Screen.initialise, Core.Screen.new, Backstack.push,
        Backstack.getCurrent, hnet, List.dropLast_concat]
  | none =>
      simp [Core.Screen.initialise, Core.Screen.new, Backstack.push,
        Backstack.getCurrent, hnet, List.dropLast_concat]

/-- C8: `onGoAndClear(destination)` forced-pops the current screen and pushes
a fresh `Screen(destination)` whose content is requested ignoring any cache
(a request is issued unconditionally, `forceRefresh = true`), so the old top
is discarded entirely: the locator stack becomes
`dropLast (old stack) ++ [destination]`, and in particular `[Home]` becomes
`[destination]`. -/
theorem c8_go_and_replace (net : Core.Net) (url : String) (t : Core.Tab) :
    (Core.Tab.onGoAndClear net url t).1.backstack.screens.map Core.Screen.url
      = (t.backstack.screens.dropLast).map Core.Screen.url ++ [url] ∧
    Core.Ev.fetch url "GET" none ∈ (Core.Tab.onGoAndClear net url t).2 ∧
    (∀ resp, net url "GET" none = some resp →
      (Core.Tab.onGoAndClear net url t).1.backstack.getCurrent
        = some { Core.Screen.new url with htmlCode := some resp }) := by
  have h := onGo_spec net url { t with backstack := (t.backstack.popForced).1 }
  rw [popForced_fst_screens] at h
  exact h

/-- Witness for C8: from the one-screen stack `[Home]`, go-and-replace to
`page3` with a successful fetch. -/
theorem c8_go_and_replace_witness :
    (fun (_ : String) (_ : String) (_ : FormData) => some "page3-html")
        "page3" "GET" none = some "page3-html" ∧
    ((Core.Tab.onGoAndClear (fun _ _ _ => some "page3-html") "page3"
        (Core.Tab.new [Core.Screen.new "home"] "tab-one")).1.backstack.screens.map
          Core.Screen.url
        = ((Core.Tab.new [Core.Screen.new "home"]
            "tab-one").backstack.screens.dropLast).map Core.Screen.url
          ++ ["page3"] ∧
      Core.Ev.fetch "page3" "GET" none ∈
        (Core.Tab.onGoAndClear (fun _ _ _ => some "page3-html") "page3"
          (Core.Tab.new [Core.Screen.new "home"] "tab-one")).2 ∧
      (Core.Tab.onGoAndClear (fun _ _ _ => some "page3-html") "page3"
          (Core.Tab.new [Core.Screen.new "home"] "tab-one")).1.backstack.getCurrent
        = some { Core.Screen.new "page3" with htmlCode := some "page3-html" }) := by
  have h := c8_go_and_replace (fun _ _ _ => some "page3-html") "page3"
    (Core.Tab.new [Core.Screen.new "home"] "tab-one")
  exact ⟨rfl, h.1, h.2.1, h.2.2 "page3-html" rfl⟩

/-- A tab of the part_001 variant whose single current screen has cached
content, used to exercise the refresh path. -/
def c3Tab : Core.Tab :=
  { backstack := ⟨[{ Core.Screen.new "profile" with htmlCode := some "cached-html" }]⟩
    viewId := "tab-one" }

/-- A network that would deliver fresh content for every request. -/
def c3Net : Core.Net := fun _ _ _ => some "fresh-html"

/-- C3 counterexample: in the part_001 variant the refresh trigger
(`setRefreshOverride` handler, then `Tab.onRefresh`, which passes
`forceRefresh = false`) re-delivers the cached content with no ajax request,
even though the network would return different fresh content: the trace is
exactly destroy-then-cached-success, and the current screen keeps its cached
content. -/
theorem c3_refresh_counterexample :
    c3Net "profile" "GET" none = some "fresh-html" ∧
    (Core.Tab.refreshClick c3Net c3Tab).2 =
      [Core.Ev.destroyScreen "profile",
        Core.Ev.success "cached-html" "profile",
        Core.Ev.backVisibility false] ∧
    (Core.Tab.refreshClick c3Net c3Tab).1.backstack.getCurrent
      = some { Core.Screen.new "profile" with htmlCode := some "cached-html" } :=
  ⟨rfl, rfl, rfl⟩

/-- C3 amended: in the backstack.js (lib) variant the refresh trigger marks
the current screen stale (`forceRefreshOnLoad := true`) before reloading, so
the same screen stays current and its content comes from a fresh `$.get` of
its locator rather than from the cache. -/
theorem c3_refresh_fresh_fetch_lib (net : Lib.Net) (t : Lib.Tab)
    (scr : Lib.Screen) (fresh : String)
    (hscr : t.backstack.getCurrent = some scr)
    (hnet : net scr.url = some fresh) :
    (Lib.Tab.refreshClick net t).1.backstack.getCurrent
      = some { scr with forceRefreshOnLoad := true, htmlCode := some fresh } ∧
    Lib.Ev.fetch scr.url ∈ (Lib.Tab.refreshClick net t).2 ∧
    Lib.Ev.getHTML fresh scr.url ∈ (Lib.Tab.refreshClick net t).2 := by
  have hred : Lib.Tab.refreshClick net t =
      (let scr' := { scr with forceRefreshOnLoad := true }
       let r := Lib.Tab.onRefresh net
         { t with backstack := ⟨t.backstack.screens.dropLast ++ [scr']⟩ }
       (r.1, Lib.Ev.destroyScreen scr.url :: r.2)) := by
    simp only [Lib.Tab.refreshClick, hscr]
  rw [hred]
  have hcur : (Backstack.mk (t.backstack.screens.dropLast ++
      [{ scr with forceRefreshOnLoad := true }])).getCurrent
      = some { scr with forceRefreshOnLoad := true } := by
    simp [Backstack.getCurrent]
  simp only [Lib.Tab.onRefresh, Lib.Tab.getHtml, hcur]
  cases hc : scr.htmlCode with
  | none =>
      simp [Lib.Screen.initialise, hc, hnet, Backstack.getCurrent,
        List.dropLast_concat]
  | some code =>
      simp [Lib.Screen.initialise, hc, hnet, Backstack.getCurrent,
        List.dropLast_concat]

/-- Witness for the amended C3 on a concrete cached screen. -/
theorem c3_refresh_fresh_fetch_lib_witness :
    (Lib.Tab.mk ⟨[{ Lib.Screen.new "profile" with htmlCode := some "cached-html" }]⟩
        "tab-one").backstack.getCurrent
      = some { Lib.Screen.new "profile" with htmlCode := some "cached-html" } ∧
    (fun (_ : String) => some "fresh-html")
        ({ Lib.Screen.new "profile" with htmlCode := some "cached-html" } :
          Lib.Screen).url = some "fresh-html" ∧
    ((Lib.Tab.refreshClick (fun _ => some "fresh-html")
        (Lib.Tab.mk
          ⟨[{ Lib.Screen.new "profile" with htmlCode := some "cached-html" }]⟩
          "tab-one")).1.backstack.getCurrent
      = some { { Lib.Screen.new "profile" with htmlCode := some "cached-html" }
          with forceRefreshOnLoad := true, htmlCode := some "fresh-html" } ∧
    Lib.Ev.fetch ({ Lib.Screen.new "profile" with
        htmlCode := some "cached-html" } : Lib.Screen).url ∈
      (Lib.Tab.refreshClick (fun _ => some "fresh-html")
        (Lib.Tab.mk
          ⟨[{ Lib.Screen.new "profile" with htmlCode := some "cached-html" }]⟩
          "tab-one")).2 ∧
    Lib.Ev.getHTML "fresh-html" ({ Lib.Screen.new "profile" with
        htmlCode := some "cached-html" } : Lib.Screen).url ∈
      (Lib.Tab.refreshClick (fun _ => some "fresh-html")
        (Lib.Tab.mk
          ⟨[{ Lib.Screen.new "profile" with htmlCode := some "cached-html" }]⟩
          "tab-one")).2) :=
  ⟨rfl, rfl, c3_refresh_fresh_fetch_lib (fun _ => some "fresh-html")
    (Lib.Tab.mk
      ⟨[{ Lib.Screen.new "profile" with htmlCode := some "cached-html" }]⟩
      "tab-one")
    { Lib.Screen.new "profile" with htmlCode := some "cached-html" }
    "fresh-html" rfl rfl⟩

/-- A stale cached screen of the backstack.js variant, as it stands after a
form submission set `forceRefreshOnLoad`. -/
def c4Screen : Lib.Screen :=
  { Lib.Screen.new "profile" with
      htmlCode := some "old-html", forceRefreshOnLoad := true }

/-- C4: evaluation of `Screen.initialise` at a stale cached screen whose
fetch succeeds.  The response is stored as the cached content, but the
screen's `forceRefreshOnLoad` flag is NOT cleared: the callback's
`this.forceRefreshOnLoad = false` writes to the callback receiver, not to the
Screen held in `self`, so the flag stays `true`, contradicting the claimed
clear-on-completion. -/
theorem c4_stale_flag_not_cleared :
    ((c4Screen.initialise (fun _ => some "fresh-html") false).1.htmlCode
      = some "fresh-html") ∧
    ((c4Screen.initialise (fun _ => some "fresh-html") false).1.forceRefreshOnLoad
      = true) ∧
    Lib.Ev.fetch "profile" ∈
      (c4Screen.initialise (fun _ => some "fresh-html") false).2 :=
  ⟨rfl, rfl, by decide⟩

/-- Wrapping a non-teardown tab event through the TabBar closures never
produces a teardown event. -/
theorem wrapTabEv_all_no_destroy (v : String) (e : Core.Ev)
    (hd : e.isDestroy = false) :
    ((Core.wrapTabEv v e).all (fun x => !x.isDestroy)) = true := by
  cases e <;> simp_all [Core.wrapTabEv, Core.Ev.isDestroy]

/-- The trace of `setCurrentScreenHTML` contains no teardown events. -/
theorem setCurrent_all_no_destroy (net : Core.Net) (method : String)
    (data : FormData) (f : Bool) (t : Core.Tab) :
    ((Core.Tab.setCurrentScreenHTML net method data f t).2.all
      (fun e => !e.isDestroy)) = true := by
  cases hcur : t.backstack.getCurrent with
  | none => simp [Core.Tab.setCurrentScreenHTML, hcur, Core.Ev.isDestroy]
  | some scr =>
      cases hc : scr.htmlCode with
      | some code =>
          cases f with
          | false =>
              simp [Core.Tab.setCurrentScreenHTML, Core.Screen.initialise,
                hcur, hc, Core.Ev.isDestroy]
          | true =>
              cases hnet : net scr.url method data <;>
                simp [Core.Tab.setCurrentScreenHTML, Core.Screen.initialise,
                  hcur, hc, hnet, Core.Ev.isDestroy]
      | none =>
          cases hnet : net scr.url method data <;>
            simp [Core.Tab.setCurrentScreenHTML, Core.Screen.initialise,
              hcur, hc, hnet, Core.Ev.isDestroy]

/-- The TabBar-wrapped trace of `setCurrentScreenHTML` contains no teardown
events either. -/
theorem setCurrent_wrap_all_no_destroy (net : Core.Net) (method : String)
    (data : FormData) (f : Bool) (t : Core.Tab) (v : String) :
    (((Core.Tab.setCurrentScreenHTML net method data f t).2.flatMap
        (Core.wrapTabEv v)).all (fun e => !e.isDestroy)) = true := by
  rw [List.all_eq_true]
  intro e he
  rcases List.mem_flatMap.mp he with ⟨a, ha, hwa⟩
  have ha' : a.isDestroy = false := by
    have h := setCurrent_all_no_destroy net method data f t
    rw [List.all_eq_true] at h
    simpa using h a ha
  have h2 := wrapTabEv_all_no_destroy v a ha'
  rw [List.all_eq_true] at h2
  exact h2 e hwa

/-- In a trace that splits into a prefix without viewport writes and a suffix
without teardowns, every teardown index precedes every viewport-write
index. -/
theorem destroy_before_write_of_append (l₁ l₂ : List Core.Ev)
    (h₂ : ∀ e ∈ l₂, e.isDestroy = false)
    (h₁ : ∀ e ∈ l₁, e.isWrite = false) :
    ∀ p q u code,
      (l₁ ++ l₂).get? p = some (Core.Ev.destroyScreen u) →
      (l₁ ++ l₂).get? q = some (Core.Ev.writeViewport code) → p < q := by
  intro p q u code hp hq
  have hplt : p < l₁.length := by
    by_contra hge
    push_neg at hge
    rw [List.get?_append_right hge] at hp
    have hmem := List.get?_mem hp
    have := h₂ _ hmem
    simp [Core.Ev.isDestroy] at this
  have hqge : l₁.length ≤ q := by
    by_contra hlt
    push_neg at hlt
    rw [List.get?_append hlt] at hq
    have hmem := List.get?_mem hq
    have := h₁ _ hmem
    simp [Core.Ev.isWrite] at this
  omega

/-- C5: clicking a tab destroys the previously selected tab's current
screen's bindings strictly before any content is written into the shared
viewport (every teardown index in the click trace precedes every
viewport-write index), and the selection record becomes the clicked tab's
view id. -/
theorem c5_teardown_before_viewport_write (net : Core.Net)
    (bar : Core.TabBar) (i : Nat) (tab old : Core.Tab) (scr : Core.Screen)
    (htab : bar.tabs.get? i = some tab)
    (hold : bar.findTab bar.selectedTabViewId = some old)
    (hscr : old.backstack.getCurrent = some scr) :
    (Core.TabBar.clickTabAt net bar i).1.selectedTabViewId = tab.viewId ∧
    (∀ p q u code,
      (Core.TabBar.clickTabAt net bar i).2.get? p
          = some (Core.Ev.destroyScreen u) →
      (Core.TabBar.clickTabAt net bar i).2.get? q
          = some (Core.Ev.writeViewport code) → p < q) := by
  have hred : Core.TabBar.clickTabAt net bar i =
      ({ bar with
          selectedTabViewId := tab.viewId
          tabs := bar.tabs.set i
            (Core.Tab.setCurrentScreenHTML net "GET" none true tab).1 },
        [Core.Ev.unselectAllTabs, Core.Ev.markSelected tab.viewId,
          Core.Ev.hideViewport, Core.Ev.destroyScreen scr.url]
          ++ ((Core.Tab.setCurrentScreenHTML net "GET" none true tab).2.flatMap
              (Core.wrapTabEv tab.viewId))) := by
    simp only [Core.TabBar.clickTabAt, htab, hold, hscr]
  rw [hred]
  refine ⟨rfl, ?_⟩
  apply destroy_before_write_of_append
  · intro e he
    have h := setCurrent_wrap_all_no_destroy net "GET" none true tab tab.viewId
    rw [List.all_eq_true] at h
    simpa using h e he
  · intro e he
    simp only [List.mem_cons, List.mem_singleton] at he
    rcases he with rfl | rfl | rfl | rfl | h
    · rfl
    · rfl
    · rfl
    · rfl
    · simp at h

/-- Witness for C5: a two-tab bar with tab A selected; clicking tab B. -/
theorem c5_teardown_before_viewport_write_witness :
    ((Core.TabBar.new [Core.Tab.new [Core.Screen.new "home-a"] "tab-a",
        Core.Tab.new [Core.Screen.new "home-b"] "tab-b"] "tab-a" "500").tabs.get? 1
      = some (Core.Tab.new [Core.Screen.new "home-b"] "tab-b") ∧
    (Core.TabBar.new [Core.Tab.new [Core.Screen.new "home-a"] "tab-a",
        Core.Tab.new [Core.Screen.new "home-b"] "tab-b"] "tab-a" "500").findTab
        (Core.TabBar.new [Core.Tab.new [Core.Screen.new "home-a"] "tab-a",
          Core.Tab.new [Core.Screen.new "home-b"] "tab-b"] "tab-a"
          "500").selectedTabViewId
      = some (Core.Tab.new [Core.Screen.new "home-a"] "tab-a") ∧
    (Core.Tab.new [Core.Screen.new "home-a"] "tab-a").backstack.getCurrent
      = some (Core.Screen.new "home-a")) ∧
    ((Core.TabBar.clickTabAt (fun _ _ _ => some "b-html")
        (Core.TabBar.new [Core.Tab.new [Core.Screen.new "home-a"] "tab-a",
          Core.Tab.new [Core.Screen.new "home-b"] "tab-b"] "tab-a" "500")
        1).1.selectedTabViewId
      = (Core.Tab.new [Core.Screen.new "home-b"] "tab-b").viewId ∧
    (∀ p q u code,
      (Core.TabBar.clickTabAt (fun _ _ _ => some "b-html")
          (Core.TabBar.new [Core.Tab.new [Core.Screen.new "home-a"] "tab-a",
            Core.Tab.new [Core.Screen.new "home-b"] "tab-b"] "tab-a" "500")
          1).2.get? p = some (Core.Ev.destroyScreen u) →
      (Core.TabBar.clickTabAt (fun _ _ _ => some "b-html")
          (Core.TabBar.new [Core.Tab.new [Core.Screen.new "home-a"] "tab-a",
            Core.Tab.new [Core.Screen.new "home-b"] "tab-b"] "tab-a" "500")
          1).2.get? q = some (Core.Ev.writeViewport code) → p < q)) :=
  ⟨⟨rfl, by decide, rfl⟩,
    c5_teardown_before_viewport_write (fun _ _ _ => some "b-html")
      (Core.TabBar.new [Core.Tab.new [Core.Screen.new "home-a"] "tab-a",
        Core.Tab.new [Core.Screen.new "home-b"] "tab-b"] "tab-a" "500")
      1 (Core.Tab.new [Core.Screen.new "home-b"] "tab-b")
      (Core.Tab.new [Core.Screen.new "home-a"] "tab-a")
      (Core.Screen.new "home-a") rfl (by decide) rfl⟩

end BackstackJs
